import Mathlib

/-!
Shallow embedding of the Socket.IO client layer of this repository
(src/socketioxide/src/client.rs) together with the minimal surrounding
state it manipulates.  The `Client` methods and the `EngineIoHandler`
implementation (`on_connect`, `on_message`, `on_binary`, `on_disconnect`)
are translated directly from the source; collaborating pieces that are not
under src/ (the packet codec, the `Namespace` type, the error taxonomy,
the engine.io socket primitives) are modelled from the specification and
are marked as such in their doc comments.
-/

namespace Sioxide

/-- Socket.IO protocol version, as in the source's `ProtocolVersion` enum
(v4 and v5 features are both considered enabled, matching the cfg blocks
present in client.rs). -/
inductive ProtocolVersion
  | V4
  | V5
deriving DecidableEq, Repr

/-- Modelled from the spec: the engine.io `DisconnectReason` variants named
in section 7 (transport-level, terminal to the session). -/
inductive DisconnectReason
  | TransportClose
  | TransportError
  | HeartbeatTimeout
  | PacketParsingError
  | MultipleHttpPollingError
  | ServerShutdown
deriving DecidableEq, Repr

/-- Session identifier; the source's `Sid` is an opaque id, modelled as Nat. -/
abbrev Sid := Nat

/-- Modelled from the spec: the partial binary packet payload
(src/socketioxide/src/packet.rs is absent).  It carries the JSON args with
placeholders (kept opaque), the buffer of attachments received so far, and
the declared attachment count. -/
structure BinaryPacket where
  data : String
  bin : List (List Nat)
  payload_count : Nat
deriving DecidableEq, Repr

/-- Modelled from the spec: each `on_binary` callback appends one attachment
to the buffer. -/
def BinaryPacket.add_payload (p : BinaryPacket) (d : List Nat) : BinaryPacket :=
  { p with bin := p.bin ++ [d] }

/-- Modelled from the spec: the packet is complete when the number of received
attachments equals the declared `attach_count`. -/
def BinaryPacket.is_complete (p : BinaryPacket) : Bool :=
  p.payload_count == p.bin.length

/-- The Socket.IO packet payload variants, as enumerated in the spec's data
model (`Connect(auth?)`, `Disconnect`, `Event`, `Ack`, `ConnectError`,
`BinaryEvent`, `BinaryAck`); JSON values are kept opaque as strings. -/
inductive PacketData
  | Connect (auth : Option String)
  | Disconnect
  | Event (e : String) (data : String) (ack : Option Nat)
  | EventAck (data : String) (ack : Nat)
  | ConnectError (message : String)
  | BinaryEvent (e : String) (packet : BinaryPacket) (ack : Option Nat)
  | BinaryAck (packet : BinaryPacket) (ack : Nat)
deriving DecidableEq, Repr

/-- A Socket.IO packet: payload plus the target namespace path. -/
structure Packet where
  inner : PacketData
  ns : String
deriving DecidableEq, Repr

/-- Modelled from the spec: `Packet::connect` builds the Connect response
carrying the assigned socket id, sent back on successful connection. -/
def Packet.connect (nsp : String) (sid : Sid) (_protocol : ProtocolVersion) : Packet :=
  { inner := PacketData.Connect (some (toString sid)), ns := nsp }

/-- Modelled from the spec: `Packet::invalid_namespace` builds the
`ConnectError` reply for an unknown namespace (scenario 5 of the spec). -/
def Packet.invalid_namespace (nsp : String) : Packet :=
  { inner := PacketData.ConnectError "Invalid namespace", ns := nsp }

/-- Modelled from the spec: a namespace (src/socketioxide/src/ns.rs is
absent) holds the set of connected socket ids; `dispatch_err` abstracts
whether dispatching to the user callback fails (spec section 4.5 / 7). -/
structure Nsp where
  sockets : List Sid
  dispatch_err : Option String
deriving DecidableEq, Repr

/-- Modelled from the spec: the error taxonomy of section 7 as seen by the
client layer: serialization errors on the wire, and errors arising inside a
namespace dispatch. -/
inductive Error
  | SerializeError
  | Dispatch (e : String)
deriving DecidableEq, Repr

/-- Modelled from the spec: the conversion `&Error -> Option<DisconnectReason>`
used by `on_message`/`on_binary`.  Wire decoding (serialization) errors
escalate to a session close with `PacketParsingError`; errors inside a
namespace dispatch stay local (section 7 propagation policy). -/
def Error.disconnectReason : Error → Option DisconnectReason
  | Error.SerializeError => some DisconnectReason.PacketParsingError
  | Error.Dispatch _ => none

/-- State of the oneshot receiver held by the connect-timeout task. -/
inductive RxState
  | waiting
  | signalled
  | dropped
deriving DecidableEq, Repr

/-- A runtime panic of the translated code (`unwrap` on an `Err`, or the
`unreachable!` branch of `apply_payload_on_packet`). -/
inductive Panic
  | unwrapFailed
  | unreachableReached
deriving DecidableEq, Repr

/-- The observable state of one engine.io session together with the client's
namespace registry.  `emitted` logs packets sent back to the peer
(`esocket.emit`), `forwarded` logs payloads delivered to a namespace
(`Namespace::recv`), `connect_log` logs successful namespace connections
with their auth payload (`Namespace::connect`), and `closed_sio` logs
Socket.IO sockets that were explicitly closed. -/
structure State where
  nss : List (String × Nsp)
  protocol : ProtocolVersion
  partial_bin_packet : Option Packet
  connect_recv_tx : Bool
  rx : RxState
  closed : Option DisconnectReason
  emitted : List Packet
  forwarded : List (String × Sid × PacketData)
  connect_log : List (String × String)
  closed_sio : List (String × Sid)
  sid : Sid
deriving DecidableEq, Repr

/-- `Client::get_ns`: look the namespace up in the registry. -/
def get_ns (s : State) (path : String) : Option Nsp :=
  (s.nss.find? (fun p => p.fst == path)).map Prod.snd

/-- Replace the entry for `path` in the registry (helper for updates). -/
def set_ns (s : State) (path : String) (n : Nsp) : State :=
  { s with nss := s.nss.map (fun p => if p.fst == path then (path, n) else p) }

/-- Modelled from the spec: engine.io `Socket::close(reason)` — `Closed` is
terminal and monotonic (invariant I2 / property P5): a later close keeps the
first reason. -/
def eioClose (r : DisconnectReason) (s : State) : State :=
  match s.closed with
  | some _ => s
  | none => { s with closed := some r }

/-- Modelled from the spec: engine.io `Socket::emit` pushes a packet to the
outbound queue; after close it fails with `SessionClosed` and the caller
only logs the error (property P1). -/
def eioEmit (p : Packet) (s : State) : State :=
  match s.closed with
  | some _ => s
  | none => { s with emitted := s.emitted ++ [p] }

/-- Modelled from the spec: `Namespace::connect` invokes the user's connect
callback with the auth payload and registers the socket as connected
(section 4.5); auth deserialization is modelled as total. -/
def nsConnect (path : String) (auth : String) (s : State) : State :=
  match get_ns s path with
  | some n =>
      let s := set_ns s path { n with sockets := n.sockets ++ [s.sid] }
      { s with connect_log := s.connect_log ++ [(path, auth)] }
  | none => s

/-- `Client::apply_payload_on_packet`: apply an incoming binary payload to
the partial binary packet; returns true when the packet is complete.  The
source's `unreachable!` arm (a non-binary packet stored as partial) is a
panic; a missing partial packet only logs and returns false. -/
def apply_payload_on_packet (data : List Nat) (s : State) :
    Except Panic (Bool × State) :=
  match s.partial_bin_packet with
  | some packet =>
      match packet.inner with
      | PacketData.BinaryEvent e bp a =>
          let bp := bp.add_payload data
          let q : Packet := { packet with inner := PacketData.BinaryEvent e bp a }
          Except.ok (bp.is_complete, { s with partial_bin_packet := some q })
      | PacketData.BinaryAck bp a =>
          let bp := bp.add_payload data
          let q : Packet := { packet with inner := PacketData.BinaryAck bp a }
          Except.ok (bp.is_complete, { s with partial_bin_packet := some q })
      | _ => Except.error Panic.unreachableReached
  | none => Except.ok (false, s)

/-- `Client::sock_recv_bin_packet`: stash the header packet as the session's
partial binary packet (`replace` discards any previous one). -/
def sock_recv_bin_packet (packet : Packet) (s : State) : State :=
  { s with partial_bin_packet := some packet }

/-- `Client::sock_propagate_packet`: deliver the payload to its target
namespace, or silently succeed when the namespace is not registered.
Dispatch failure is abstracted by `Nsp.dispatch_err`. -/
def sock_propagate_packet (packet : Packet) (s : State) :
    State × Except Error Unit :=
  match get_ns s packet.ns with
  | some n =>
      match n.dispatch_err with
      | some e => (s, Except.error (Error.Dispatch e))
      | none =>
          ({ s with forwarded := s.forwarded ++ [(packet.ns, s.sid, packet.inner)] },
            Except.ok ())
  | none => (s, Except.ok ())

/-- Take the oneshot sender out of `connect_recv_tx` and, if present, send
the cancellation signal: `tx.send(()).unwrap()`.  The send returns `Err`
(and the unwrap panics) exactly when the receiver has been dropped. -/
def takeAndSignal (s : State) : Except Panic State :=
  if s.connect_recv_tx then
    match s.rx with
    | RxState.dropped => Except.error Panic.unwrapFailed
    | _ => Except.ok { s with connect_recv_tx := false, rx := RxState.signalled }
  else
    Except.ok s

/-- `Client::sock_connect`: connect the session to a namespace.  Registered
namespace: cancel the v5 connect-timeout, emit the Connect response, run
`Namespace::connect`, then take the sender again.  Unregistered root
namespace on v4: log and close the transport.  Otherwise: emit an
invalid-namespace `ConnectError` packet.  Packet serialization is modelled
as total. -/
def sock_connect (auth : String) (ns_path : String) (s : State) :
    Except Panic State :=
  match get_ns s ns_path with
  | some _ =>
      (match takeAndSignal s with
       | Except.error p => Except.error p
       | Except.ok s =>
           let s := eioEmit (Packet.connect ns_path s.sid s.protocol) s
           let s := nsConnect ns_path auth s
           takeAndSignal s)
  | none =>
      if s.protocol == ProtocolVersion.V4 && ns_path == "/" then
        Except.ok (eioClose DisconnectReason.TransportClose s)
      else
        Except.ok (eioEmit (Packet.invalid_namespace ns_path) s)

/-- `Client::spawn_connect_timeout_task`: create the oneshot channel and
store the sender on the session; the spawned task itself is modelled by
`connect_timeout_fire`. -/
def spawn_connect_timeout_task (s : State) : State :=
  { s with connect_recv_tx := true, rx := RxState.waiting }

/-- Models the spawned task when `connect_timeout` elapses: if the receiver
is still waiting the timeout future resolves to `Err`, dropping the
receiver, and the error arm closes the session with `TransportClose`; if
the cancellation signal already arrived the future resolved to `Ok` and
nothing happens. -/
def connect_timeout_fire (s : State) : State :=
  match s.rx with
  | RxState.waiting =>
      eioClose DisconnectReason.TransportClose { s with rx := RxState.dropped }
  | _ => s

/-- `Client::add_ns`: register a namespace handler (insert replaces). -/
def add_ns (path : String) (s : State) : State :=
  { s with nss := (s.nss.filter (fun p => !(p.fst == path))) ++
      [(path, { sockets := [], dispatch_err := none })] }

/-- `Client::delete_ns`: remove the namespace handler from the registry. -/
def delete_ns (path : String) (s : State) : State :=
  { s with nss := s.nss.filter (fun p => !(p.fst == path)) }

/-- `EngineIoHandler::on_connect`: on v4, immediately connect to the root
namespace with the auth payload `"null"`; on v5, spawn the connect-timeout
task. -/
def on_connect (s : State) : Except Panic State :=
  match (if s.protocol == ProtocolVersion.V4 then
           sock_connect "null" "/" s
         else
           Except.ok s) with
  | Except.error p => Except.error p
  | Except.ok s =>
      if s.protocol == ProtocolVersion.V5 then
        Except.ok (spawn_connect_timeout_task s)
      else
        Except.ok s

/-- Shared error epilogue of `on_message`/`on_binary`: close the session
when the error converts to a disconnect reason, otherwise only log. -/
def handle_packet_err (r : Except Error Unit) (s : State) : State :=
  match r with
  | Except.ok _ => s
  | Except.error err =>
      match err.disconnectReason with
      | some reason => eioClose reason s
      | none => s

/-- `EngineIoHandler::on_message`: decode the string frame (the codec lives
outside src/, so the decode outcome is taken as input: `Except Unit Packet`);
a decode failure closes the session with `PacketParsingError`; a `Connect`
runs `sock_connect` with `"null"` for a missing auth payload; a binary
header is stashed; everything else is propagated to its namespace. -/
def on_message (msg : Except Unit Packet) (s : State) : Except Panic State :=
  match msg with
  | Except.error _ =>
      Except.ok (eioClose DisconnectReason.PacketParsingError s)
  | Except.ok packet =>
      match packet.inner with
      | PacketData.Connect auth =>
          sock_connect (auth.getD "null") packet.ns s
      | PacketData.BinaryEvent _ _ _ =>
          Except.ok (sock_recv_bin_packet packet s)
      | PacketData.BinaryAck _ _ =>
          Except.ok (sock_recv_bin_packet packet s)
      | _ =>
          let (s, r) := sock_propagate_packet packet s
          Except.ok (handle_packet_err r s)

/-- `EngineIoHandler::on_binary`: apply the payload to the partial packet;
when complete, take the packet out and propagate it to its namespace. -/
def on_binary (data : List Nat) (s : State) : Except Panic State :=
  match apply_payload_on_packet data s with
  | Except.error p => Except.error p
  | Except.ok (complete, s) =>
      if complete then
        match s.partial_bin_packet with
        | some packet =>
            let s := { s with partial_bin_packet := none }
            let (s, r) := sock_propagate_packet packet s
            Except.ok (handle_packet_err r s)
        | none => Except.ok s
      else
        Except.ok s

/-- `EngineIoHandler::on_disconnect` (modelled `Socket::close` effects from
the spec): every Socket.IO socket of this session is closed and removed
from its namespace. -/
def on_disconnect (_reason : DisconnectReason) (s : State) : State :=
  { s with
    nss := s.nss.map (fun p =>
      (p.fst, { p.snd with sockets := p.snd.sockets.filter (fun x => !(x == s.sid)) })),
    closed_sio := s.closed_sio ++
      (s.nss.filter (fun p => p.snd.sockets.contains s.sid)).map
        (fun p => (p.fst, s.sid)) }

/-- One externally visible event on the session after it is open. -/
inductive Ev
  | message (m : Except Unit Packet)
  | binary (d : List Nat)
  | connectTimeout
deriving Repr

/-- Step the session state by one event. -/
def step (s : State) : Ev → Except Panic State
  | Ev.message m => on_message m s
  | Ev.binary d => on_binary d s
  | Ev.connectTimeout => Except.ok (connect_timeout_fire s)

/-- Run a sequence of events from a state. -/
def run (s : State) (evs : List Ev) : Except Panic State :=
  evs.foldlM (fun s e => step s e) s

/-- True for the payloads that `on_message` stashes as a partial binary
packet (`BinaryEvent`/`BinaryAck` headers). -/
def isBinaryHeader : PacketData → Bool
  | PacketData.BinaryEvent _ _ _ => true
  | PacketData.BinaryAck _ _ => true
  | _ => false

/-- True for the payloads that land in the catch-all arm of `on_message`
(everything except `Connect` and the binary headers), which is routed
through `sock_propagate_packet`. -/
def routedToNamespace : PacketData → Bool
  | PacketData.Connect _ => false
  | PacketData.BinaryEvent _ _ _ => false
  | PacketData.BinaryAck _ _ => false
  | _ => true

/-- Shorthand for a `BinaryEvent` packet with explicit reassembly state. -/
def binEvtPacket (e dat : String) (bs : List (List Nat)) (n : Nat)
    (a : Option Nat) (p : String) : Packet :=
  { inner := PacketData.BinaryEvent e
      { data := dat, bin := bs, payload_count := n } a, ns := p }

/-- Shorthand for a `BinaryAck` packet with explicit reassembly state. -/
def binAckPacket (dat : String) (bs : List (List Nat)) (n : Nat)
    (a : Nat) (p : String) : Packet :=
  { inner := PacketData.BinaryAck
      { data := dat, bin := bs, payload_count := n } a, ns := p }

/-- Sample namespace with no connected socket and a dispatch that succeeds. -/
def nsp0 : Nsp := { sockets := [], dispatch_err := none }

/-- Sample fresh v5 session whose client has the root namespace registered. -/
def s0 : State :=
  { nss := [("/", nsp0)], protocol := ProtocolVersion.V5,
    partial_bin_packet := none, connect_recv_tx := false,
    rx := RxState.dropped, closed := none, emitted := [], forwarded := [],
    connect_log := [], closed_sio := [], sid := 1 }

/-- Sample session waiting for one attachment of a `BinaryEvent` header. -/
def c1w : State :=
  { s0 with partial_bin_packet := some (binEvtPacket "ev" "d" [] 1 none "/") }

/-- Sample session with one outstanding attachment, used against C2. -/
def c2s : State :=
  { s0 with partial_bin_packet := some (binEvtPacket "ev" "d" [] 1 none "/") }

/-- A plain string `Event` packet for the root namespace. -/
def c2pkt : Packet := { inner := PacketData.Event "x" "args" none, ns := "/" }

/-- Sample v4 session whose client has no namespace registered. -/
def c4a : State := { s0 with
  protocol := ProtocolVersion.V4
  nss := [] }

/-- Sample v4 session whose client has the root namespace registered. -/
def c4b : State := { s0 with protocol := ProtocolVersion.V4 }

/-- Sample v5 session with a pending connect-timeout channel. -/
def c5t : State := { s0 with
  connect_recv_tx := true
  rx := RxState.waiting }

/-- Sample client with one namespace holding one connected socket. -/
def c6s : State :=
  { s0 with nss := [("/chat", { sockets := [1], dispatch_err := none })] }

/-- Sample session whose root namespace dispatch fails. -/
def c7s : State :=
  { s0 with nss := [("/", { sockets := [], dispatch_err := some "boom" })] }

/-- An `Event` packet targeting an unregistered namespace. -/
def c9pkt : Packet := { inner := PacketData.Event "x" "args" none, ns := "/nope" }

/-- C1: Binary reassembly: when a `BinaryEvent` or `BinaryAck` header packet
is received on a session, it is stored as the session's partial binary
packet; every subsequent binary payload received on that session appends
exactly one attachment to that stored packet; and the packet is forwarded
to its namespace exactly when the number of received attachments equals the
declared `attach_count`, not before. -/
theorem claim_C1 (s : State) (pk : Packet) (e dat p : String)
    (bs : List (List Nat)) (n : Nat) (a1 : Option Nat) (a2 : Nat)
    (nsp : Nsp) (d : List Nat) :
    (isBinaryHeader pk.inner = true →
      on_message (Except.ok pk) s =
        Except.ok { s with partial_bin_packet := some pk }) ∧
    (s.partial_bin_packet = some (binEvtPacket e dat bs n a1 p) →
      get_ns s p = some nsp → nsp.dispatch_err = none →
      (bs.length + 1 = n →
        on_binary d s = Except.ok { s with
          partial_bin_packet := none
          forwarded := s.forwarded ++
            [(p, s.sid, (binEvtPacket e dat (bs ++ [d]) n a1 p).inner)] }) ∧
      (bs.length + 1 ≠ n →
        on_binary d s = Except.ok { s with
          partial_bin_packet := some (binEvtPacket e dat (bs ++ [d]) n a1 p) })) ∧
    (s.partial_bin_packet = some (binAckPacket dat bs n a2 p) →
      get_ns s p = some nsp → nsp.dispatch_err = none →
      (bs.length + 1 = n →
        on_binary d s = Except.ok { s with
          partial_bin_packet := none
          forwarded := s.forwarded ++
            [(p, s.sid, (binAckPacket dat (bs ++ [d]) n a2 p).inner)] }) ∧
      (bs.length + 1 ≠ n →
        on_binary d s = Except.ok { s with
          partial_bin_packet := some (binAckPacket dat (bs ++ [d]) n a2 p) })) := by
  refine ⟨?_, ?_, ?_⟩
  · intro h
    obtain ⟨inner, pns⟩ := pk
    cases inner <;>
      simp_all [on_message, sock_recv_bin_packet, isBinaryHeader]
  · intro hpb hns hde
    constructor
    · intro hlen
      subst hlen
      simp only [get_ns] at hns
      simp [on_binary, apply_payload_on_packet, hpb, binEvtPacket,
        BinaryPacket.add_payload, BinaryPacket.is_complete,
        sock_propagate_packet, get_ns, handle_packet_err, hns, hde]
    · intro hlen
      simp [on_binary, apply_payload_on_packet, hpb, binEvtPacket,
        BinaryPacket.add_payload, BinaryPacket.is_complete, hlen]
      intro h
      exact absurd h.symm hlen
  · intro hpb hns hde
    constructor
    · intro hlen
      subst hlen
      simp only [get_ns] at hns
      simp [on_binary, apply_payload_on_packet, hpb, binAckPacket,
        BinaryPacket.add_payload, BinaryPacket.is_complete,
        sock_propagate_packet, get_ns, handle_packet_err, hns, hde]
    · intro hlen
      simp [on_binary, apply_payload_on_packet, hpb, binAckPacket,
        BinaryPacket.add_payload, BinaryPacket.is_complete, hlen]
      intro h
      exact absurd h.symm hlen

/-- Witness for C1 at a concrete session: a header declaring one attachment
followed by one binary payload is forwarded with that payload substituted
in. -/
theorem claim_C1_witness :
    on_binary [7] c1w = Except.ok { c1w with
      partial_bin_packet := none
      forwarded := c1w.forwarded ++
        [("/", c1w.sid, (binEvtPacket "ev" "d" [[7]] 1 none "/").inner)] } :=
  ((claim_C1 c1w (binEvtPacket "ev" "d" [] 1 none "/") "ev" "d" "/" [] 1 none 0
      nsp0 [7]).2.1 rfl rfl rfl).1 rfl

/-- Helper: a successful `takeAndSignal` preserves every field of the state
except the channel fields `connect_recv_tx` and `rx`. -/
theorem takeAndSignal_ok (s r : State) (h : takeAndSignal s = Except.ok r) :
    r.closed = s.closed ∧ r.nss = s.nss ∧ r.emitted = s.emitted ∧
      r.partial_bin_packet = s.partial_bin_packet ∧
      r.connect_log = s.connect_log ∧ r.sid = s.sid ∧
      r.protocol = s.protocol := by
  unfold takeAndSignal at h
  split at h
  · cases hrx : s.rx <;> rw [hrx] at h <;> simp at h <;> subst h <;> simp
  · simp at h
    subst h
    simp

/-- Helper: `eioEmit` only appends to `emitted`. -/
theorem eioEmit_fields (p : Packet) (s : State) :
    (eioEmit p s).closed = s.closed ∧ (eioEmit p s).nss = s.nss ∧
      (eioEmit p s).partial_bin_packet = s.partial_bin_packet ∧
      (eioEmit p s).connect_log = s.connect_log ∧
      (eioEmit p s).sid = s.sid ∧ (eioEmit p s).protocol = s.protocol ∧
      (eioEmit p s).connect_recv_tx = s.connect_recv_tx ∧
      (eioEmit p s).rx = s.rx := by
  unfold eioEmit
  split <;> simp

/-- Helper: `nsConnect` only touches the namespace registry and the connect
log. -/
theorem nsConnect_fields (path auth : String) (s : State) :
    (nsConnect path auth s).closed = s.closed ∧
      (nsConnect path auth s).partial_bin_packet = s.partial_bin_packet ∧
      (nsConnect path auth s).sid = s.sid ∧
      (nsConnect path auth s).protocol = s.protocol ∧
      (nsConnect path auth s).connect_recv_tx = s.connect_recv_tx ∧
      (nsConnect path auth s).rx = s.rx := by
  unfold nsConnect set_ns
  split <;> simp

/-- Helper: a successful `sock_connect` either keeps the close state or
closes with `TransportClose` (the v4 missing-root-namespace case); in
particular it never closes with `PacketParsingError`. -/
theorem sock_connect_ok_closed (auth np : String) (s r : State)
    (h : sock_connect auth np s = Except.ok r) :
    r.closed = s.closed ∨
      (s.closed = none ∧ r.closed = some DisconnectReason.TransportClose) := by
  unfold sock_connect at h
  split at h
  · rcases h1 : takeAndSignal s with p | s1 <;> rw [h1] at h
    · simp at h
    · left
      have h2 := takeAndSignal_ok _ _ h1
      have h3 := takeAndSignal_ok _ _ h
      have h4 := eioEmit_fields (Packet.connect np s1.sid s1.protocol) s1
      have h5 := nsConnect_fields np auth (eioEmit (Packet.connect np s1.sid s1.protocol) s1)
      rw [h3.1, h5.1, h4.1]
      exact h2.1
  · split at h
    · obtain rfl : eioClose DisconnectReason.TransportClose s = r := by
        simpa using h
      cases hc : s.closed <;> simp [eioClose, hc]
    · obtain rfl : eioEmit (Packet.invalid_namespace np) s = r := by
        simpa using h
      exact Or.inl (eioEmit_fields _ s).1

/-- Helper: propagating a packet and handling its dispatch outcome never
changes the close state or the partial binary packet: dispatch errors map
to no disconnect reason. -/
theorem propagate_handled_fields (pk : Packet) (s : State) :
    (handle_packet_err (sock_propagate_packet pk s).2
        (sock_propagate_packet pk s).1).closed = s.closed ∧
      (handle_packet_err (sock_propagate_packet pk s).2
        (sock_propagate_packet pk s).1).partial_bin_packet
          = s.partial_bin_packet := by
  rcases hg : get_ns s pk.ns with _ | n
  · simp [sock_propagate_packet, handle_packet_err, hg]
  · rcases hd : n.dispatch_err with _ | e <;>
      simp [sock_propagate_packet, handle_packet_err, hg, hd,
        Error.disconnectReason]

/-- C2 counterexample: on a session with one outstanding attachment, a new
string `Event` packet is processed normally and the session is not
disconnected: the resulting close state is `none`, not
`PacketParsingError`. -/
theorem claim_C2_counterexample :
    on_message (Except.ok c2pkt) c2s =
      Except.ok { c2s with forwarded := [("/", 1, c2pkt.inner)] } ∧
    ({ c2s with forwarded := [("/", 1, c2pkt.inner)] }).closed ≠
      some DisconnectReason.PacketParsingError := by
  exact ⟨rfl, by decide⟩

/-- C2 amended: a new string packet arriving while attachments are
outstanding is not rejected: it is processed like any other packet, the
session is never disconnected with `PacketParsingError`, and a new binary
header simply replaces the outstanding partial packet. -/
theorem claim_C2_amended (s : State) (pk : Packet) (r : State)
    (hopen : s.closed = none)
    (hrun : on_message (Except.ok pk) s = Except.ok r) :
    r.closed ≠ some DisconnectReason.PacketParsingError ∧
    (isBinaryHeader pk.inner = true → r.partial_bin_packet = some pk) := by
  obtain ⟨inner, pns⟩ := pk
  cases inner with
  | Connect auth =>
      simp only [on_message] at hrun
      constructor
      · rcases sock_connect_ok_closed _ _ _ _ hrun with h | h
        · rw [h, hopen]
          simp
        · rw [h.2]
          simp
      · intro hbin
        simp [isBinaryHeader] at hbin
  | BinaryEvent e bp a =>
      simp only [on_message, sock_recv_bin_packet] at hrun
      simp only [Except.ok.injEq] at hrun
      subst hrun
      simp [hopen]
  | BinaryAck bp a =>
      simp only [on_message, sock_recv_bin_packet] at hrun
      simp only [Except.ok.injEq] at hrun
      subst hrun
      simp [hopen]
  | Disconnect =>
      simp only [on_message, Except.ok.injEq] at hrun
      subst hrun
      have h := propagate_handled_fields { inner := PacketData.Disconnect, ns := pns } s
      rw [h.1, hopen]
      simp [isBinaryHeader]
  | Event e d a =>
      simp only [on_message, Except.ok.injEq] at hrun
      subst hrun
      have h := propagate_handled_fields { inner := PacketData.Event e d a, ns := pns } s
      rw [h.1, hopen]
      simp [isBinaryHeader]
  | EventAck d a =>
      simp only [on_message, Except.ok.injEq] at hrun
      subst hrun
      have h := propagate_handled_fields { inner := PacketData.EventAck d a, ns := pns } s
      rw [h.1, hopen]
      simp [isBinaryHeader]
  | ConnectError m =>
      simp only [on_message, Except.ok.injEq] at hrun
      subst hrun
      have h := propagate_handled_fields { inner := PacketData.ConnectError m, ns := pns } s
      rw [h.1, hopen]
      simp [isBinaryHeader]

/-- Witness for the amended C2 at a concrete input: the session of the
counterexample with an incoming `Event` packet. -/
theorem claim_C2_amended_witness :
    ({ c2s with forwarded := [("/", 1, c2pkt.inner)] }).closed ≠
        some DisconnectReason.PacketParsingError ∧
      (isBinaryHeader c2pkt.inner = true →
        ({ c2s with forwarded := [("/", 1, c2pkt.inner)] }).partial_bin_packet
          = some c2pkt) :=
  claim_C2_amended c2s c2pkt _ (by decide) rfl

/-- C3: a `Connect` packet for an unregistered namespace (outside the v4
root-namespace case) makes the server emit a `ConnectError` packet for that
namespace back to the peer while the session stays open. -/
theorem claim_C3 (s : State) (auth : Option String) (p : String)
    (hns : get_ns s p = none)
    (hnr : s.protocol = ProtocolVersion.V4 → p ≠ "/")
    (hopen : s.closed = none) :
    on_message (Except.ok { inner := PacketData.Connect auth, ns := p }) s =
      Except.ok { s with emitted := s.emitted ++ [Packet.invalid_namespace p] } := by
  have hb : (s.protocol == ProtocolVersion.V4 && p == "/") = false := by
    cases hp : s.protocol
    · simp [hnr hp]
    · simp
  simp [on_message, sock_connect, hns, hb, eioEmit, hopen]

/-- Witness for C3: a fresh v5 session receiving `Connect` for the
unregistered namespace `/nope`. -/
theorem claim_C3_witness :
    on_message (Except.ok { inner := PacketData.Connect none, ns := "/nope" }) s0 =
      Except.ok { s0 with emitted := s0.emitted ++ [Packet.invalid_namespace "/nope"] } :=
  claim_C3 s0 none "/nope" (by decide) (by decide) (by decide)

/-- Helper: `get_ns` only depends on the namespace registry. -/
theorem get_ns_eq_of_nss (s t : State) (h : s.nss = t.nss) (path : String) :
    get_ns s path = get_ns t path := by
  simp [get_ns, h]

/-- C4: for every v4 session, an internal Connect to the root namespace
with a null auth payload is issued immediately on session open; if the root
namespace is not registered at that moment the session is closed with
`TransportClose` rather than kept open. -/
theorem claim_C4 (s : State) (nsp : Nsp)
    (hv : s.protocol = ProtocolVersion.V4)
    (hopen : s.closed = none)
    (htx : s.connect_recv_tx = false) :
    (get_ns s "/" = none →
      on_connect s =
        Except.ok { s with closed := some DisconnectReason.TransportClose }) ∧
    (get_ns s "/" = some nsp →
      ∃ r, on_connect s = Except.ok r ∧
        r.connect_log = s.connect_log ++ [("/", "null")] ∧
        r.emitted = s.emitted ++ [Packet.connect "/" s.sid s.protocol] ∧
        r.closed = none) := by
  constructor
  · intro hns
    simp [on_connect, hv, sock_connect, hns, eioClose, hopen]
  · intro hns
    simp only [get_ns] at hns
    refine ⟨nsConnect "/" "null"
      (eioEmit (Packet.connect "/" s.sid s.protocol) s), ?_, ?_, ?_, ?_⟩
    · simp [on_connect, hv, sock_connect, get_ns, hns, takeAndSignal, htx,
        eioEmit, hopen, nsConnect, set_ns]
    · simp [nsConnect, get_ns, hns, set_ns, eioEmit, hopen]
    · simp [nsConnect, get_ns, hns, set_ns, eioEmit, hopen]
    · simp [nsConnect, get_ns, hns, set_ns, eioEmit, hopen]

/-- Witness for C4: the two root-namespace situations at session open of a
concrete v4 session. -/
theorem claim_C4_witness :
    on_connect c4a =
      Except.ok { c4a with closed := some DisconnectReason.TransportClose } ∧
    (∃ r, on_connect c4b = Except.ok r ∧
      r.connect_log = c4b.connect_log ++ [("/", "null")] ∧
      r.emitted = c4b.emitted ++ [Packet.connect "/" c4b.sid c4b.protocol] ∧
      r.closed = none) :=
  ⟨(claim_C4 c4a nsp0 rfl rfl rfl).1 (by decide),
   (claim_C4 c4b nsp0 rfl rfl rfl).2 (by decide)⟩

/-- C5: on v5 session open a connect-timeout deadline is armed; if it
expires while no `Connect` has arrived the session closes with
`TransportClose`; a `Connect` packet for a registered namespace signals the
channel, and once signalled the timeout never closes the session. -/
theorem claim_C5 (s t : State) (p : String) (auth : Option String) (nsp : Nsp) :
    (s.protocol = ProtocolVersion.V5 → s.closed = none →
      on_connect s = Except.ok { s with
        connect_recv_tx := true
        rx := RxState.waiting }) ∧
    (t.rx = RxState.waiting → t.closed = none →
      connect_timeout_fire t = { t with
        rx := RxState.dropped
        closed := some DisconnectReason.TransportClose }) ∧
    (t.rx = RxState.waiting → t.connect_recv_tx = true →
      get_ns t p = some nsp →
      ∃ r, on_message (Except.ok { inner := PacketData.Connect auth, ns := p }) t =
          Except.ok r ∧ r.rx = RxState.signalled ∧ r.closed = t.closed) ∧
    (t.rx = RxState.signalled → connect_timeout_fire t = t) := by
  refine ⟨?_, ?_, ?_, ?_⟩
  · intro hv hopen
    simp [on_connect, hv, spawn_connect_timeout_task]
  · intro hrx hopen
    simp [connect_timeout_fire, hrx, eioClose, hopen]
  · intro hrx htx hns
    have h1 : takeAndSignal t =
        Except.ok { t with connect_recv_tx := false, rx := RxState.signalled } := by
      unfold takeAndSignal
      rw [htx, hrx]
      simp
    have hvf := eioEmit_fields (Packet.connect p t.sid t.protocol)
      { t with connect_recv_tx := false, rx := RxState.signalled }
    have hwf := nsConnect_fields p (auth.getD "null")
      (eioEmit (Packet.connect p t.sid t.protocol)
        { t with connect_recv_tx := false, rx := RxState.signalled })
    have htx2 : (nsConnect p (auth.getD "null")
        (eioEmit (Packet.connect p t.sid t.protocol)
          { t with connect_recv_tx := false, rx := RxState.signalled })).connect_recv_tx
        = false := by
      rw [hwf.2.2.2.2.1, hvf.2.2.2.2.2.2.1]
    have h2 : takeAndSignal (nsConnect p (auth.getD "null")
        (eioEmit (Packet.connect p t.sid t.protocol)
          { t with connect_recv_tx := false, rx := RxState.signalled }))
        = Except.ok (nsConnect p (auth.getD "null")
            (eioEmit (Packet.connect p t.sid t.protocol)
              { t with connect_recv_tx := false, rx := RxState.signalled })) := by
      unfold takeAndSignal
      rw [htx2]
      simp
    refine ⟨nsConnect p (auth.getD "null")
      (eioEmit (Packet.connect p t.sid t.protocol)
        { t with connect_recv_tx := false, rx := RxState.signalled }), ?_, ?_, ?_⟩
    · simp only [on_message, sock_connect, hns, h1, h2]
    · rw [hwf.2.2.2.2.2, hvf.2.2.2.2.2.2.2]
    · rw [hwf.1, hvf.1]
  · intro hrx
    simp [connect_timeout_fire, hrx]

/-- Witness for C5 on concrete sessions: arming at open, expiry closing,
cancellation by `Connect`, and the post-cancellation no-op. -/
theorem claim_C5_witness :
    on_connect s0 = Except.ok { s0 with
      connect_recv_tx := true
      rx := RxState.waiting } ∧
    connect_timeout_fire c5t = { c5t with
      rx := RxState.dropped
      closed := some DisconnectReason.TransportClose } ∧
    (∃ r, on_message (Except.ok { inner := PacketData.Connect none, ns := "/" }) c5t =
        Except.ok r ∧ r.rx = RxState.signalled ∧ r.closed = c5t.closed) ∧
    connect_timeout_fire { c5t with rx := RxState.signalled } =
      { c5t with rx := RxState.signalled } :=
  ⟨(claim_C5 s0 c5t "/" none nsp0).1 rfl rfl,
   (claim_C5 s0 c5t "/" none nsp0).2.1 rfl rfl,
   (claim_C5 s0 c5t "/" none nsp0).2.2.1 rfl rfl (by decide),
   (claim_C5 s0 { c5t with rx := RxState.signalled } "/" none nsp0).2.2.2 rfl⟩


/-- Helper: filtering a key out of an association list does not change the
lookup of a different key. -/
theorem find_filter_other (l : List (String × Nsp)) (path q : String)
    (hq : q ≠ path) :
    (l.filter (fun x => !(x.1 == path))).find? (fun x => x.1 == q) =
      l.find? (fun x => x.1 == q) := by
  induction l with
  | nil => rfl
  | cons hd tl ih =>
      cases hbp : (hd.1 == path) with
      | true =>
          have h3 : hd.1 = path := eq_of_beq hbp
          have hpq : (hd.1 == q) = false := by
            rw [h3]
            exact beq_eq_false_iff_ne.mpr fun h => hq h.symm
          simp [List.filter_cons, List.find?_cons, hbp, hpq, ih]
      | false =>
          cases hbq : (hd.1 == q) <;>
            simp [List.filter_cons, List.find?_cons, hbp, hbq, ih]

/-- C6 counterexample: deleting a namespace that has one connected socket
closes nothing: the closure log stays empty, so the socket was not closed
by the deletion. -/
theorem claim_C6_counterexample :
    get_ns c6s "/chat" = some { sockets := [1], dispatch_err := none } ∧
    (1 : Sid) ∈ ({ sockets := [1], dispatch_err := none } : Nsp).sockets ∧
    (delete_ns "/chat" c6s).closed_sio = [] ∧
    ("/chat", (1 : Sid)) ∉ (delete_ns "/chat" c6s).closed_sio := by
  refine ⟨by decide, by decide, by decide, by decide⟩

/-- C6 amended: `delete_ns` only unregisters the namespace from the
registry: the path no longer resolves, other namespaces are untouched, and
no Socket.IO socket is closed by the deletion. -/
theorem claim_C6_amended (s : State) (path q : String) :
    get_ns (delete_ns path s) path = none ∧
    (delete_ns path s).closed_sio = s.closed_sio ∧
    (q ≠ path → get_ns (delete_ns path s) q = get_ns s q) := by
  refine ⟨?_, rfl, ?_⟩
  · simp only [get_ns, delete_ns]
    rw [List.find?_eq_none.mpr]
    · rfl
    · intro x hx
      have hm := (List.mem_filter.mp hx).2
      simp at hm
      simp [hm]
  · intro hq
    simp only [get_ns, delete_ns]
    rw [find_filter_other _ _ _ hq]

/-- Witness for the amended C6 at the concrete one-namespace client. -/
theorem claim_C6_amended_witness :
    get_ns (delete_ns "/chat" c6s) "/chat" = none ∧
    (delete_ns "/chat" c6s).closed_sio = c6s.closed_sio ∧
    get_ns (delete_ns "/chat" c6s) "/nope" = get_ns c6s "/nope" :=
  ⟨(claim_C6_amended c6s "/chat" "/nope").1,
   (claim_C6_amended c6s "/chat" "/nope").2.1,
   (claim_C6_amended c6s "/chat" "/nope").2.2 (by decide)⟩

/-- C7: a string frame that fails to decode closes the session with
`PacketParsingError`, while an error arising inside a namespace dispatch
leaves the session untouched. -/
theorem claim_C7 (s : State) (pns e0 d0 : String) (a0 : Option Nat)
    (nsp : Nsp) (emsg : String) :
    (s.closed = none →
      on_message (Except.error ()) s =
        Except.ok { s with closed := some DisconnectReason.PacketParsingError }) ∧
    (get_ns s pns = some nsp → nsp.dispatch_err = some emsg →
      on_message (Except.ok { inner := PacketData.Event e0 d0 a0, ns := pns }) s =
        Except.ok s) := by
  constructor
  · intro hopen
    simp [on_message, eioClose, hopen]
  · intro hns hde
    simp [on_message, sock_propagate_packet, hns, hde, handle_packet_err,
      Error.disconnectReason]

/-- Witness for C7: a garbled frame on the fresh session and a failing
dispatch on the session whose root namespace handler errors. -/
theorem claim_C7_witness :
    on_message (Except.error ()) s0 =
      Except.ok { s0 with closed := some DisconnectReason.PacketParsingError } ∧
    on_message (Except.ok { inner := PacketData.Event "x" "args" none, ns := "/" }) c7s =
      Except.ok c7s :=
  ⟨(claim_C7 s0 "/" "x" "args" none nsp0 "boom").1 rfl,
   (claim_C7 c7s "/" "x" "args" none
      { sockets := [], dispatch_err := some "boom" } "boom").2 (by decide) rfl⟩

/-- C8 counterexample: a binary payload arriving with no pending binary
header is silently dropped: the session state is unchanged and in
particular the session is not closed. -/
theorem claim_C8_counterexample :
    on_binary [222, 173, 190, 239] s0 = Except.ok s0 ∧ s0.closed = none :=
  ⟨rfl, rfl⟩

/-- C8 amended: a binary payload on a session with no stored partial binary
packet is ignored: processing succeeds and the state, including the close
state, is unchanged. -/
theorem claim_C8_amended (s : State) (d : List Nat)
    (h : s.partial_bin_packet = none) :
    on_binary d s = Except.ok s := by
  simp [on_binary, apply_payload_on_packet, h]

/-- Witness for the amended C8 on the fresh session. -/
theorem claim_C8_amended_witness : on_binary [222] s0 = Except.ok s0 :=
  claim_C8_amended s0 [222] rfl

/-- C9: a successfully parsed non-Connect, non-binary packet whose
namespace is not registered is silently dropped: processing succeeds, no
packet is emitted to the peer and the session state is unchanged. -/
theorem claim_C9 (s : State) (pk : Packet)
    (hroute : routedToNamespace pk.inner = true)
    (hns : get_ns s pk.ns = none) :
    on_message (Except.ok pk) s = Except.ok s := by
  obtain ⟨inner, pns⟩ := pk
  cases inner <;>
    simp_all [on_message, routedToNamespace, sock_propagate_packet,
      handle_packet_err]

/-- Witness for C9: an `Event` for the unregistered namespace `/nope` on
the fresh session. -/
theorem claim_C9_witness : on_message (Except.ok c9pkt) s0 = Except.ok s0 :=
  claim_C9 s0 c9pkt (by decide) (by decide)

/-- C10: evaluating the code on the racing interleaving: the v5 session is
opened (arming the connect timeout), the timeout elapses (dropping the
oneshot receiver and closing the transport), and a `Connect` packet for the
registered root namespace is then processed: `sock_connect` takes the
stored sender and its `tx.send(()).unwrap()` panics because the receiver is
gone. -/
theorem claim_C10 :
    (on_connect s0).bind (fun s => run s [Ev.connectTimeout,
        Ev.message (Except.ok { inner := PacketData.Connect none, ns := "/" })]) =
      Except.error Panic.unwrapFailed := rfl

end Sioxide
